import Mathlib

/-!
Shallow embedding of the "Gerenciamento Trader" browser ledger scripts.

Two source variants are embedded:
* the main script (kept here under its original Portuguese names:
  `state`, `calcularKPIs`, `carregarLocal`, `adicionarOperacao`, the form
  submit handler), which keeps a full operation log and derives KPIs; and
* `script/sozinho.js` (`sozinhoInit`, `sozinhoSubmit`), which tracks only a
  running balance and applies the payout percentage on WIN.

Modelling conventions:
* JS numbers are modelled as `ℚ`; the single not-a-number outcome of a
  `Number(...)` conversion is modelled by `NumVal.nan`.
* JS `Date` values are modelled by their components (`JSDate`); JS compares
  dates by epoch milliseconds, which for in-range component values is the
  lexicographic order on components, realised here by the strictly monotone
  key `JSDate.key`.
* `result` fields are kept as `String`, exactly as in the JS objects; the
  scripts compare them with `===`.
* DOM and localStorage effects are external collaborators: the loader takes
  the (already `JSON.parse`d) input as an explicit argument, the wall clock
  reads (`new Date()`) become an explicit `now : JSDate` argument, and the
  submit handlers return the new state paired with the optional user-visible
  error message they would write into the message element.
-/

/-- Result of a JS `Number(...)` conversion: either NaN or a finite value
(infinities do not arise from the inputs considered here). -/
inductive NumVal where
  | nan : NumVal
  | num : ℚ → NumVal
deriving Repr, DecidableEq

/-- A JS `Date`, by components (`month` is 0-based as in JS). -/
structure JSDate where
  year : ℤ
  month : ℤ
  day : ℤ
  hour : ℤ
  minute : ℤ
  second : ℤ
  ms : ℤ
deriving Repr, DecidableEq

/-- Strictly monotone encoding of a date's components; JS compares `Date`s by
epoch milliseconds, and for in-range components this key induces the same
order. -/
def JSDate.key (d : JSDate) : ℤ :=
  (((((d.year * 12 + d.month) * 32 + d.day) * 24 + d.hour) * 60 + d.minute) * 60
      + d.second) * 1000 + d.ms

/-- JS `<` on dates. -/
def JSDate.lt (a b : JSDate) : Bool := a.key < b.key

/-- JS `<=` on dates. -/
def JSDate.le (a b : JSDate) : Bool := a.key ≤ b.key

/-- One record of `state.operacoes`.  `payoutPercent` is an extra field that a
persisted snapshot may carry (the loader's object spread keeps unknown
fields); the main script never reads it. -/
structure Operation where
  id : String
  createdAt : JSDate
  amount : ℚ
  result : String
  strategy : String
  description : String
  payoutPercent : Option ℚ
deriving Repr, DecidableEq

/-- The mutable `state` object of the main script. -/
structure State where
  bancaInicial : ℚ
  operacoes : List Operation
deriving Repr, DecidableEq

/-- The initial value of `state` in the main script: `bancaInicial: 5000`,
empty `operacoes`. -/
def initialState : State := ⟨5000, []⟩

/-- Per-operation signed profit as the main script computes it inside each
`reduce`: `o.result === 'WIN' ? o.amount : -o.amount`.  Note the payout
percentage is NOT consulted. -/
def profitOp (o : Operation) : ℚ :=
  if o.result = "WIN" then o.amount else -o.amount

/-- `inicioDoMesAtual`: first instant of the month of `now`
(`new Date(now.getFullYear(), now.getMonth(), 1, 0, 0, 0, 0)`). -/
def inicioDoMesAtual (now : JSDate) : JSDate :=
  ⟨now.year, now.month, 1, 0, 0, 0, 0⟩

/-- Backward scan of the current-streak loop: counts how many consecutive
operations (in the scanned order) share result `tipo`, stopping at the first
mismatch (`break`). -/
def streakScan (tipo : String) : List Operation → ℕ
  | [] => 0
  | o :: rest => if o.result = tipo then streakScan tipo rest + 1 else 0

/-- The current-streak loop of `calcularKPIs`, iterating from the last
operation backwards: `streakTipo = ops[i]?.result || null` (a falsy — empty —
result string yields `null` and a zero streak), then increments while the
result equals `streakTipo`, breaking at the first difference. -/
def streakPair (ops : List Operation) : ℕ × Option String :=
  match ops.reverse with
  | [] => (0, none)
  | last :: revRest =>
      if last.result = "" then (0, none)
      else (1 + streakScan last.result revRest, some last.result)

/-- The max-WIN-streak loop of `calcularKPIs`: a forward pass keeping
`(streakMax, atual)`; a WIN increments `atual` and raises `streakMax`, any
other result resets `atual` to 0. -/
def streakMaxLoop (ops : List Operation) : ℕ :=
  (ops.foldl
    (fun p o => if o.result = "WIN" then (max p.1 (p.2 + 1), p.2 + 1) else (p.1, 0))
    (0, 0)).1

/-- The record returned by `calcularKPIs`. -/
structure KPIs where
  bancaAtual : ℚ
  baselineMes : ℚ
  variacaoValor : ℚ
  variacaoPct : ℚ
  winsMes : ℕ
  lossesMes : ℕ
  taxaAcerto : ℚ
  lucroMes : ℚ
  mediaMes : ℚ
  streakAtual : ℕ
  streakTipo : Option String
  streakMax : ℕ
  ultima : Option Operation
deriving Repr, DecidableEq

/-- `calcularKPIs` of the main script.  The JS function reads the global
`state` and calls `new Date()` internally (in `inicioDoMesAtual` and in the
month filter); both wall-clock reads are modelled as the explicit argument
`now`, and the state as the explicit argument `st`. -/
def calcularKPIs (st : State) (now : JSDate) : KPIs :=
  let ops := st.operacoes
  let startMonth := inicioDoMesAtual now
  let profitAll := ops.foldl (fun acc o => acc + profitOp o) 0
  let bancaAtual := st.bancaInicial + profitAll
  let profitAntesMes :=
    (ops.filter (fun o => o.createdAt.lt startMonth)).foldl
      (fun acc o => acc + profitOp o) 0
  let baselineMes := st.bancaInicial + profitAntesMes
  let opsMes := ops.filter (fun o => startMonth.le o.createdAt && o.createdAt.le now)
  let winsMes := (opsMes.filter (fun o => o.result = "WIN")).length
  let lossesMes := (opsMes.filter (fun o => o.result = "LOSS")).length
  let lucroMes := opsMes.foldl (fun acc o => acc + profitOp o) 0
  let taxaAcerto : ℚ :=
    if winsMes + lossesMes > 0 then
      ((winsMes : ℚ) / ((winsMes : ℚ) + (lossesMes : ℚ))) * 100
    else 0
  let variacaoValor := lucroMes
  let variacaoPct : ℚ :=
    if baselineMes > 0 then variacaoValor / baselineMes * 100 else 0
  let sp := streakPair ops
  let streakMax := streakMaxLoop ops
  let mediaMes : ℚ :=
    if opsMes.length > 0 then
      (opsMes.foldl (fun acc o => acc + o.amount) 0) / (opsMes.length : ℚ)
    else 0
  let ultima := ops.getLast?
  { bancaAtual := bancaAtual
    baselineMes := baselineMes
    variacaoValor := variacaoValor
    variacaoPct := variacaoPct
    winsMes := winsMes
    lossesMes := lossesMes
    taxaAcerto := taxaAcerto
    lucroMes := lucroMes
    mediaMes := mediaMes
    streakAtual := sp.1
    streakTipo := sp.2
    streakMax := streakMax
    ultima := ultima }

/-- One element of the `operacoes` array of a parsed snapshot, as
`carregarLocal` consumes it: `createdAt` is `none` when the stored field is
falsy (absent or empty), in which case the loader substitutes `new Date()`;
`amount` is the value of `Number(o.amount)` (a stored value whose conversion
is NaN is outside this model); `result` is the stored string, compared with
`=== 'WIN'`. -/
structure StoredOp where
  id : String
  createdAt : Option JSDate
  amount : ℚ
  result : String
  strategy : String
  description : String
  payoutPercent : Option ℚ
deriving Repr, DecidableEq

/-- The shape-relevant part of a successfully parsed snapshot object:
`bancaInicial` is the result of the `Number(parsed.bancaInicial)`
conversion (`NumVal.nan` when the field is missing or non-numeric);
`operacoes` is `none` when `Array.isArray(parsed.operacoes)` is false. -/
structure StoredSnapshot where
  bancaInicial : NumVal
  operacoes : Option (List StoredOp)
deriving Repr, DecidableEq

/-- Input to `carregarLocal` after the localStorage read and `JSON.parse`:
`absent` models `localStorage.getItem` returning `null`; `parseError` models
a `JSON.parse` throw (or a throw from accessing a field of a non-object
parse result such as `null`), swallowed by the `catch`; `parsed` carries the
parsed object. -/
inductive LoadInput where
  | absent : LoadInput
  | parseError : LoadInput
  | parsed : StoredSnapshot → LoadInput
deriving Repr, DecidableEq

/-- JS `Number(parsed.bancaInicial) || 0`: NaN and 0 are falsy and give 0. -/
def numOr0 : NumVal → ℚ
  | NumVal.nan => 0
  | NumVal.num q => if q = 0 then 0 else q

/-- The per-operation normalisation applied by `carregarLocal`'s `map`:
`createdAt` falls back to `new Date()` (the wall-clock read, modelled as
`now`) and `result` is normalised to `'WIN'` or `'LOSS'`. -/
def loadOp (now : JSDate) (o : StoredOp) : Operation :=
  { id := o.id
    createdAt := o.createdAt.getD now
    amount := o.amount
    result := if o.result = "WIN" then "WIN" else "LOSS"
    strategy := o.strategy
    description := o.description
    payoutPercent := o.payoutPercent }

/-- `carregarLocal`: leaves the state untouched when nothing is stored or the
parse throws, and otherwise overwrites both fields with the normalised
snapshot. -/
def carregarLocal (input : LoadInput) (now : JSDate) (st : State) : State :=
  match input with
  | LoadInput.absent => st
  | LoadInput.parseError => st
  | LoadInput.parsed s =>
      { bancaInicial := numOr0 s.bancaInicial
        operacoes := (s.operacoes.getD []).map (loadOp now) }

/-- `adicionarOperacao`: appends one operation built from the submitted
fields.  The `id` is the generated UUID (or timestamp string) and `now` the
wall-clock `new Date()`; `result` is normalised to `'WIN'`/`'LOSS'` and
`strategy`/`description` default to the empty string, which for the string
inputs of the form is the identity.  The `salvarLocal()` and `render()` calls
are external effects and not part of the state transition. -/
def adicionarOperacao (id : String) (now : JSDate) (amount : ℚ)
    (result strategy description : String) (st : State) : State :=
  { st with
      operacoes := st.operacoes ++
        [{ id := id
           createdAt := now
           amount := amount
           result := if result = "WIN" then "WIN" else "LOSS"
           strategy := strategy
           description := description
           payoutPercent := none }] }

/-- The raw values the main script's submit handler reads from the form:
`amount` is `Number(inAmount.value)` (possibly NaN), the rest are the raw
strings (`strategy`/`description` already trimmed). -/
structure FormInput where
  amount : NumVal
  result : String
  strategy : String
  description : String
deriving Repr, DecidableEq

/-- The main script's form submit handler, from reading the fields onward: it
returns the state after the submission together with the error message left
in the `formMsg` element (`none` when the submission succeeds).  JS
`!amount` is true exactly for NaN and 0, so the `!amount || amount <= 0`
guard rejects precisely NaN and non-positive values. -/
def submitOperacao (f : FormInput) (id : String) (now : JSDate) (st : State) :
    State × Option String :=
  match f.amount with
  | NumVal.nan => (st, some "Informe um valor válido.")
  | NumVal.num q =>
      if q ≤ 0 then (st, some "Informe um valor válido.")
      else if f.result ≠ "WIN" ∧ f.result ≠ "LOSS" then
        (st, some "Selecione WIN ou LOSS.")
      else (adicionarOperacao id now q f.result f.strategy f.description st, none)

/-- Initialiser of `bancaAtual` in `script/sozinho.js`: the argument is the
stored string passed through `Number(...)` (`none` when `getItem` returned
`null`).  Note `Number(null)` is 0, which is finite, so an absent value
yields 0, not the 100 default; only a non-numeric stored string (NaN) falls
back to 100. -/
def sozinhoInit (raw : Option NumVal) : ℚ :=
  match raw with
  | none => 0
  | some NumVal.nan => 100
  | some (NumVal.num q) => q

/-- The raw values the `sozinho.js` submit handler reads from the form. -/
structure SoloFormInput where
  amount : NumVal
  payoutPercent : NumVal
  result : String
  operacional : String
  description : String
deriving Repr, DecidableEq

/-- The `sozinho.js` form submit handler, from reading the fields onward: on
any validation failure it leaves the balance unchanged and reports a
message; otherwise it applies `delta = result === 'WIN' ? amount *
(payoutPercent / 100) : -amount` to the balance.  JS `!operacional` is true
exactly for the empty string. -/
def sozinhoSubmit (f : SoloFormInput) (banca : ℚ) : ℚ × Option String :=
  match f.amount with
  | NumVal.nan => (banca, some "Informe um valor válido (> 0).")
  | NumVal.num a =>
      if a ≤ 0 then (banca, some "Informe um valor válido (> 0).")
      else
        match f.payoutPercent with
        | NumVal.nan => (banca, some "Payout deve ser entre 0 e 100.")
        | NumVal.num p =>
            if p < 0 ∨ p > 100 then (banca, some "Payout deve ser entre 0 e 100.")
            else if f.result ≠ "WIN" ∧ f.result ≠ "LOSS" then
              (banca, some "Selecione WIN ou LOSS.")
            else if f.operacional = "" then
              (banca, some "Selecione o operacional.")
            else
              (banca + (if f.result = "WIN" then a * (p / 100) else -a), none)

/-- Modelled from the spec: per-operation profit as the specification words
it, `profit(op) = op.result == WIN ? op.amount * ((op.payoutPercent ?? 100) /
100) : -op.amount`.  This is the comparison definition for the refinement
claim about `currentBalance`; the main script's own rule is `profitOp`. -/
def profitSpec (o : Operation) : ℚ :=
  if o.result = "WIN" then o.amount * ((o.payoutPercent.getD 100) / 100)
  else -o.amount

/-- Modelled from the spec: the current streak as the specification words it
— the count of consecutive trailing operations (scanning backward from the
most recent) sharing the last operation's result, `(0, none)` on an empty
log.  Comparison definition for the streak-characterisation claim; the
script's own loop is `streakPair`. -/
def currentStreakSpec (ops : List Operation) : ℕ × Option String :=
  match ops.getLast? with
  | none => (0, none)
  | some last =>
      ((ops.reverse.takeWhile (fun o => o.result == last.result)).length,
        some last.result)

/-- The data model's closed two-variant enumeration for `result`: every
operation in the state is a `'WIN'` or a `'LOSS'`. -/
def ResultOK (st : State) : Prop :=
  ∀ o ∈ st.operacoes, o.result = "WIN" ∨ o.result = "LOSS"

/-- A fixed instant used by the concrete scenarios (October 2026; `month` is
0-based). -/
def sampleNow : JSDate := ⟨2026, 9, 11, 12, 0, 0, 0⟩

/-- The spec scenario operation `{amount: 100, result: WIN, payoutPercent:
80}` created at `sampleNow`. -/
def winOp80 : Operation :=
  ⟨"op1", sampleNow, 100, "WIN", "", "", some 80⟩

/-- State of the payout scenario: `initialBalance = 5000` with the single
operation `winOp80`. -/
def c1State : State := ⟨5000, [winOp80]⟩

/-- A LOSS operation of amount 50 created at `sampleNow`. -/
def lossOp50 : Operation :=
  ⟨"op2", sampleNow, 50, "LOSS", "", "", none⟩

/-- State of the two-LOSS scenario: `initialBalance = 5000` with two LOSS
operations of amount 50. -/
def c5State : State := ⟨5000, [lossOp50, lossOp50]⟩

/-- A snapshot that parses but has none of the expected fields (e.g. the
JSON text `\x7b\x7d`): `Number(parsed.bancaInicial)` is NaN and
`parsed.operacoes` is not an array. -/
def malformedSnapshot : StoredSnapshot := ⟨NumVal.nan, none⟩

/-- A `reduce`-style fold accumulating `g` over a list is the sum of the
mapped list. -/
lemma foldl_add_map_sum (g : Operation → ℚ) :
    ∀ (l : List Operation) (a : ℚ),
      l.foldl (fun acc o => acc + g o) a = a + (l.map g).sum := by
  intro l
  induction l with
  | nil => intro a; simp
  | cons o rest ih =>
      intro a
      simp only [List.foldl_cons, List.map_cons, List.sum_cons, ih, add_assoc]

/-- C1 counterexample: the claim's profit rule applies the payout percentage,
but `calcularKPIs` does not read `payoutPercent`.  At `initialBalance = 5000`
with the single operation `{amount: 100, result: WIN, payoutPercent: 80}`,
the code yields `currentBalance = 5100`, while the claimed profit rule
yields `5000 + 80 = 5080`. -/
theorem c1_balance_payout_counterexample :
    (calcularKPIs c1State sampleNow).bancaAtual = 5100 ∧
    c1State.bancaInicial + (c1State.operacoes.map profitSpec).sum = 5080 ∧
    (calcularKPIs c1State sampleNow).bancaAtual ≠
      c1State.bancaInicial + (c1State.operacoes.map profitSpec).sum := by
  refine ⟨by with_unfolding_all rfl, by with_unfolding_all rfl, ?_⟩
  intro h
  rw [show c1State.bancaInicial + (c1State.operacoes.map profitSpec).sum = 5080
        by with_unfolding_all rfl,
      show (calcularKPIs c1State sampleNow).bancaAtual = 5100
        by with_unfolding_all rfl] at h
  norm_num at h

/-- C1 amended: in the ledger variant, `currentBalance` equals
`initialBalance` plus the sum of `profit(op)` where `profit(op) = op.amount`
on WIN (the payout percentage is ignored) and `-op.amount` on LOSS; the
payout-scaled rule of the claim is instead the per-operation balance delta
of the `sozinho.js` variant, where the scenario input `{amount: 100, result:
WIN, payoutPercent: 80}` does move a balance of 5000 to 5080. -/
theorem c1_balance_amended (st : State) (now : JSDate) :
    (calcularKPIs st now).bancaAtual =
      st.bancaInicial + (st.operacoes.map profitOp).sum ∧
    (sozinhoSubmit ⟨NumVal.num 100, NumVal.num 80, "WIN", "M5", ""⟩ 5000).1 =
      5080 := by
  constructor
  · show st.bancaInicial + st.operacoes.foldl (fun acc o => acc + profitOp o) 0 =
      st.bancaInicial + (st.operacoes.map profitOp).sum
    rw [foldl_add_map_sum, zero_add]
  · with_unfolding_all rfl

/-- C2: the KPI computation, with the internal wall-clock reads modelled as
the explicit `now` argument and the global `state` as the explicit `st`
argument, is a pure deterministic function of `(state, now)`: two calls on
identical inputs yield identical `KPIs` records (and the state, passed by
value, is not modified). -/
theorem c2_kpis_deterministic (s₁ s₂ : State) (n₁ n₂ : JSDate)
    (hs : s₁ = s₂) (hn : n₁ = n₂) :
    calcularKPIs s₁ n₁ = calcularKPIs s₂ n₂ := by
  rw [hs, hn]

/-- Witness for C2 at a concrete state and instant. -/
theorem c2_kpis_deterministic_witness :
    calcularKPIs c1State sampleNow = calcularKPIs c1State sampleNow :=
  c2_kpis_deterministic c1State c1State sampleNow sampleNow rfl rfl

/-- Bounds and branch facts for the hit-rate expression of `calcularKPIs`. -/
lemma rate_ok (w l : ℕ) :
    0 ≤ (if w + l > 0 then ((w : ℚ) / ((w : ℚ) + (l : ℚ))) * 100 else 0) ∧
    (if w + l > 0 then ((w : ℚ) / ((w : ℚ) + (l : ℚ))) * 100 else 0) ≤ 100 ∧
    (w + l = 0 →
      (if w + l > 0 then ((w : ℚ) / ((w : ℚ) + (l : ℚ))) * 100 else 0) = 0) ∧
    (0 < w + l →
      (if w + l > 0 then ((w : ℚ) / ((w : ℚ) + (l : ℚ))) * 100 else 0) =
        ((w : ℚ) / ((w : ℚ) + (l : ℚ))) * 100) := by
  rcases Nat.eq_zero_or_pos (w + l) with h | h
  · simp [h]
  · have hq : (0 : ℚ) < (w : ℚ) + (l : ℚ) := by
      exact_mod_cast h
    have hratio : (w : ℚ) / ((w : ℚ) + (l : ℚ)) ≤ 1 := by
      rw [div_le_one hq]
      have : (w : ℚ) ≤ (w : ℚ) + (l : ℚ) := by
        have hl : (0 : ℚ) ≤ (l : ℚ) := by positivity
        linarith
      exact this
    have hnn : (0 : ℚ) ≤ (w : ℚ) / ((w : ℚ) + (l : ℚ)) := by positivity
    refine ⟨?_, ?_, ?_, ?_⟩
    · simp [h]
      positivity
    · simp [h]
      nlinarith
    · intro h0
      omega
    · intro _
      simp [h]

/-- C3: for every state and instant, the hit rate lies in `[0, 100]`; it is 0
when the month has no counted operations (`monthWins + monthLosses = 0`) and
otherwise equals `monthWins / (monthWins + monthLosses) * 100`. -/
theorem c3_hit_rate_bounds (st : State) (now : JSDate) :
    0 ≤ (calcularKPIs st now).taxaAcerto ∧
    (calcularKPIs st now).taxaAcerto ≤ 100 ∧
    ((calcularKPIs st now).winsMes + (calcularKPIs st now).lossesMes = 0 →
      (calcularKPIs st now).taxaAcerto = 0) ∧
    (0 < (calcularKPIs st now).winsMes + (calcularKPIs st now).lossesMes →
      (calcularKPIs st now).taxaAcerto =
        ((calcularKPIs st now).winsMes : ℚ) /
          (((calcularKPIs st now).winsMes : ℚ) +
            ((calcularKPIs st now).lossesMes : ℚ)) * 100) := by
  have ht : (calcularKPIs st now).taxaAcerto =
      (if (calcularKPIs st now).winsMes + (calcularKPIs st now).lossesMes > 0
       then (((calcularKPIs st now).winsMes : ℚ) /
          (((calcularKPIs st now).winsMes : ℚ) +
            ((calcularKPIs st now).lossesMes : ℚ))) * 100
       else 0) := rfl
  rw [ht]
  exact rate_ok (calcularKPIs st now).winsMes (calcularKPIs st now).lossesMes

/-- Witness for C3: at the one-WIN scenario state the month has one counted
operation and the hit rate evaluates to 100. -/
theorem c3_hit_rate_bounds_witness :
    (calcularKPIs c1State sampleNow).taxaAcerto =
      ((calcularKPIs c1State sampleNow).winsMes : ℚ) /
        (((calcularKPIs c1State sampleNow).winsMes : ℚ) +
          ((calcularKPIs c1State sampleNow).lossesMes : ℚ)) * 100 :=
  (c3_hit_rate_bounds c1State sampleNow).2.2.2 (by decide)

/-- The step function of the max-WIN-streak loop, as a named function for the
streak lemmas; `streakMaxLoop` folds exactly this step. -/
def winStep (p : ℕ × ℕ) (o : Operation) : ℕ × ℕ :=
  if o.result = "WIN" then (max p.1 (p.2 + 1), p.2 + 1) else (p.1, 0)

/-- `streakMaxLoop` is the first component of folding `winStep`. -/
lemma streakMaxLoop_eq_fold (ops : List Operation) :
    streakMaxLoop ops = (ops.foldl winStep (0, 0)).1 := rfl

/-- Along the max-WIN-streak fold, the running maximum stays at least the
running counter. -/
lemma winStep_fold_max_ge :
    ∀ (ops : List Operation) (p : ℕ × ℕ), p.2 ≤ p.1 →
      (ops.foldl winStep p).2 ≤ (ops.foldl winStep p).1 := by
  intro ops
  induction ops with
  | nil => intro p h; exact h
  | cons o rest ih =>
      intro p h
      rw [List.foldl_cons]
      apply ih
      unfold winStep
      by_cases hw : o.result = "WIN"
      · simp [hw]
      · simp [hw]

/-- The running counter of the max-WIN-streak fold dominates the length of
the trailing WIN run (the backward scan of the reversed list with type
`'WIN'`). -/
lemma winStep_fold_cur_ge_scan :
    ∀ (ops : List Operation) (p : ℕ × ℕ),
      streakScan "WIN" ops.reverse ≤ (ops.foldl winStep p).2 := by
  intro ops
  induction ops using List.reverseRecOn with
  | nil => intro p; simp [streakScan]
  | append_singleton xs x ih =>
      intro p
      rw [List.foldl_append, List.foldl_cons, List.foldl_nil]
      have hrev : (xs ++ [x]).reverse = x :: xs.reverse := by simp
      rw [hrev]
      by_cases hw : x.result = "WIN"
      · simp only [streakScan, winStep, hw, if_pos]
        have := ih p
        omega
      · simp [streakScan, winStep, hw]

/-- Unfolding of `streakPair` when the reversed log is nonempty. -/
lemma streakPair_reverse_cons (ops : List Operation) (last : Operation)
    (revRest : List Operation) (hrev : ops.reverse = last :: revRest) :
    streakPair ops =
      if last.result = "" then (0, none)
      else (1 + streakScan last.result revRest, some last.result) := by
  unfold streakPair
  rw [hrev]

/-- If the streak loop reports a trailing WIN streak, the max-WIN-streak loop
reports at least that length. -/
lemma streakPair_le_max (ops : List Operation)
    (h : (streakPair ops).2 = some "WIN") :
    (streakPair ops).1 ≤ streakMaxLoop ops := by
  cases hrev : ops.reverse with
  | nil =>
      have hnil : streakPair ops = (0, none) := by
        unfold streakPair
        rw [hrev]
      rw [hnil] at h
      simp at h
  | cons last revRest =>
      have hp := streakPair_reverse_cons ops last revRest hrev
      by_cases hres : last.result = ""
      · rw [hp, if_pos hres] at h
        simp at h
      · rw [hp, if_neg hres] at h ⊢
        have hwin : last.result = "WIN" := by
          simpa using h
        show 1 + streakScan last.result revRest ≤ streakMaxLoop ops
        have hscan : streakScan "WIN" ops.reverse =
            1 + streakScan "WIN" revRest := by
          rw [hrev]
          simp [streakScan, hwin]
          omega
        have h1 := winStep_fold_cur_ge_scan ops (0, 0)
        have h2 := winStep_fold_max_ge ops (0, 0) (Nat.le_refl 0)
        rw [streakMaxLoop_eq_fold]
        rw [hwin]
        omega

/-- C4: whenever the current streak is a WIN streak, the maximal WIN streak
is at least the current streak. -/
theorem c4_max_ge_current_win_streak (st : State) (now : JSDate)
    (h : (calcularKPIs st now).streakTipo = some "WIN") :
    (calcularKPIs st now).streakAtual ≤ (calcularKPIs st now).streakMax := by
  have h2 : (streakPair st.operacoes).2 = some "WIN" := h
  have := streakPair_le_max st.operacoes h2
  exact this

/-- Witness for C4 at the one-WIN scenario state. -/
theorem c4_max_ge_current_win_streak_witness :
    (calcularKPIs c1State sampleNow).streakAtual ≤
      (calcularKPIs c1State sampleNow).streakMax :=
  c4_max_ge_current_win_streak c1State sampleNow (by decide)

/-- The backward scan counts exactly the matching prefix of the scanned
list. -/
lemma streakScan_eq_takeWhile (tipo : String) :
    ∀ l : List Operation,
      streakScan tipo l = (l.takeWhile (fun o => o.result == tipo)).length := by
  intro l
  induction l with
  | nil => simp [streakScan]
  | cons o rest ih =>
      by_cases h : o.result = tipo
      · simp [streakScan, List.takeWhile_cons, h, ih]
      · simp [streakScan, List.takeWhile_cons, h]

/-- A nonempty reversed log determines the last element. -/
lemma getLast?_of_reverse_cons (ops : List Operation) (last : Operation)
    (rest : List Operation) (hrev : ops.reverse = last :: rest) :
    ops.getLast? = some last := by
  rw [show ops = (last :: rest).reverse by rw [← hrev, List.reverse_reverse]]
  simp

/-- C5: on every state whose operations respect the two-variant `result`
enumeration, the streak loop computes exactly the spec's current streak (the
count of trailing operations sharing the last operation's result, `(0,
none)` on an empty log); and the two-LOSS scenario yields `currentBalance =
4900`, `maxWinStreak = 0`, `currentStreak = 2`, `currentStreakResult =
LOSS`. -/
theorem c5_current_streak_spec (st : State) (now : JSDate) (h : ResultOK st) :
    ((calcularKPIs st now).streakAtual, (calcularKPIs st now).streakTipo) =
      currentStreakSpec st.operacoes ∧
    (calcularKPIs c5State sampleNow).bancaAtual = 4900 ∧
    (calcularKPIs c5State sampleNow).streakMax = 0 ∧
    (calcularKPIs c5State sampleNow).streakAtual = 2 ∧
    (calcularKPIs c5State sampleNow).streakTipo = some "LOSS" := by
  refine ⟨?_, by with_unfolding_all rfl, by decide, by decide, by decide⟩
  show streakPair st.operacoes = currentStreakSpec st.operacoes
  cases hrev : st.operacoes.reverse with
  | nil =>
      have hops : st.operacoes = [] := by
        rw [show st.operacoes = st.operacoes.reverse.reverse by
              rw [List.reverse_reverse], hrev]
        rfl
      rw [hops]
      rfl
  | cons last revRest =>
      have hlast := getLast?_of_reverse_cons st.operacoes last revRest hrev
      have hmem : last ∈ st.operacoes := by
        rw [← List.mem_reverse, hrev]
        exact List.mem_cons_self _ _
      have hne : last.result ≠ "" := by
        rcases h last hmem with hw | hl
        · rw [hw]; intro hc; exact absurd hc (by decide)
        · rw [hl]; intro hc; exact absurd hc (by decide)
      have hcode : streakPair st.operacoes =
          (1 + streakScan last.result revRest, some last.result) := by
        rw [streakPair_reverse_cons st.operacoes last revRest hrev, if_neg hne]
      have hspec : currentStreakSpec st.operacoes =
          ((st.operacoes.reverse.takeWhile
              (fun o => o.result == last.result)).length, some last.result) := by
        unfold currentStreakSpec
        rw [hlast]
      rw [hcode, hspec, hrev]
      simp [List.takeWhile_cons, streakScan_eq_takeWhile]
      omega

/-- Witness for C5 at the two-LOSS scenario state. -/
theorem c5_current_streak_spec_witness :
    ((calcularKPIs c5State sampleNow).streakAtual,
      (calcularKPIs c5State sampleNow).streakTipo) =
      currentStreakSpec c5State.operacoes :=
  (c5_current_streak_spec c5State sampleNow (by unfold ResultOK; decide)).1

/-- C6: the month baseline is the initial balance plus the profit of the
operations created before the start of the current month; when it is not
positive the month variation percent is 0 regardless of the month profit,
and when it is positive the variation percent is `monthProfit / monthBaseline
* 100`. -/
theorem c6_month_variation_policy (st : State) (now : JSDate) :
    ((calcularKPIs st now).baselineMes ≤ 0 →
      (calcularKPIs st now).variacaoPct = 0) ∧
    (0 < (calcularKPIs st now).baselineMes →
      (calcularKPIs st now).variacaoPct =
        (calcularKPIs st now).lucroMes / (calcularKPIs st now).baselineMes *
          100) ∧
    (calcularKPIs st now).baselineMes =
      st.bancaInicial +
        ((st.operacoes.filter
            (fun o => o.createdAt.lt (inicioDoMesAtual now))).map profitOp).sum := by
  have hv : (calcularKPIs st now).variacaoPct =
      (if (calcularKPIs st now).baselineMes > 0
       then (calcularKPIs st now).lucroMes / (calcularKPIs st now).baselineMes *
          100
       else 0) := rfl
  refine ⟨?_, ?_, ?_⟩
  · intro h
    rw [hv, if_neg (by exact not_lt.mpr h)]
  · intro h
    rw [hv, if_pos h]
  · show st.bancaInicial +
        (st.operacoes.filter
            (fun o => o.createdAt.lt (inicioDoMesAtual now))).foldl
          (fun acc o => acc + profitOp o) 0 = _
    rw [foldl_add_map_sum, zero_add]

/-- Witness for C6: the empty initial state has a positive baseline (5000)
and a zero variation percent equal to `0 / 5000 * 100`. -/
theorem c6_month_variation_policy_witness :
    (calcularKPIs initialState sampleNow).variacaoPct =
      (calcularKPIs initialState sampleNow).lucroMes /
        (calcularKPIs initialState sampleNow).baselineMes * 100 :=
  (c6_month_variation_policy initialState sampleNow).2.1
    (by with_unfolding_all norm_num [calcularKPIs, initialState])

/-- C7 counterexample: a snapshot that parses but has an unexpected shape
(such as the JSON text `\x7b\x7d`) does NOT fall back to the default state —
`carregarLocal` overwrites `bancaInicial` with 0, not the default 5000. -/
theorem c7_malformed_not_default_counterexample :
    carregarLocal (LoadInput.parsed malformedSnapshot) sampleNow initialState ≠
      initialState ∧
    (carregarLocal (LoadInput.parsed malformedSnapshot) sampleNow
        initialState).bancaInicial = 0 ∧
    initialState.bancaInicial = 5000 := by
  refine ⟨?_, by with_unfolding_all rfl, by with_unfolding_all rfl⟩
  intro h
  have hb := congrArg State.bancaInicial h
  rw [show (carregarLocal (LoadInput.parsed malformedSnapshot) sampleNow
        initialState).bancaInicial = 0 by with_unfolding_all rfl,
      show initialState.bancaInicial = 5000 by with_unfolding_all rfl] at hb
  norm_num at hb

/-- C7 amended: when the localStorage read finds nothing or `JSON.parse`
throws, `carregarLocal` leaves the state unchanged — hence still the default
state when called at startup — and surfaces nothing (the `catch` swallows
the error).  A snapshot that parses but has an unexpected shape is instead
normalised field by field (`bancaInicial` via `Number(...) || 0`,
`operacoes` to `[]` when not an array), which need not be the default.  In
the `sozinho.js` variant the initialiser falls back to 100 only for a
non-numeric stored string; an absent key yields `Number(null) = 0`. -/
theorem c7_load_failure_amended (now : JSDate) (st : State)
    (s : StoredSnapshot) :
    carregarLocal LoadInput.absent now st = st ∧
    carregarLocal LoadInput.parseError now st = st ∧
    (carregarLocal (LoadInput.parsed s) now st).bancaInicial =
      numOr0 s.bancaInicial ∧
    (carregarLocal (LoadInput.parsed s) now st).operacoes =
      (s.operacoes.getD []).map (loadOp now) ∧
    sozinhoInit none = 0 ∧
    sozinhoInit (some NumVal.nan) = 100 :=
  ⟨rfl, rfl, rfl, rfl, rfl, rfl⟩

/-- C10: when a parsed snapshot's `bancaInicial` converts to NaN (missing or
non-numeric) or to 0, the loader sets the balance to 0 — not to the prior
default of 5000 — and it sets the operation list to `[]` whenever the stored
`operacoes` is not an array. -/
theorem c10_malformed_fields_normalised (now : JSDate) (st : State)
    (s : StoredSnapshot) :
    (s.bancaInicial = NumVal.nan ∨ s.bancaInicial = NumVal.num 0 →
      (carregarLocal (LoadInput.parsed s) now st).bancaInicial = 0) ∧
    (0 : ℚ) ≠ initialState.bancaInicial ∧
    (s.operacoes = none →
      (carregarLocal (LoadInput.parsed s) now st).operacoes = []) := by
  refine ⟨?_, by norm_num [initialState], ?_⟩
  · intro h
    show numOr0 s.bancaInicial = 0
    rcases h with h | h
    · rw [h]
      rfl
    · rw [h]
      unfold numOr0
      norm_num
  · intro h
    show ((s.operacoes.getD []).map (loadOp now)) = []
    rw [h]
    rfl

/-- Witness for C10 at the parsed-empty-object snapshot. -/
theorem c10_malformed_fields_normalised_witness :
    (carregarLocal (LoadInput.parsed malformedSnapshot) sampleNow
        initialState).bancaInicial = 0 ∧
    (carregarLocal (LoadInput.parsed malformedSnapshot) sampleNow
        initialState).operacoes = [] :=
  ⟨(c10_malformed_fields_normalised sampleNow initialState
      malformedSnapshot).1 (Or.inl rfl),
    (c10_malformed_fields_normalised sampleNow initialState
      malformedSnapshot).2.2 rfl⟩

/-- A main-form input that fails the handler's validation: the amount is not
a positive number (NaN, zero or negative), or the result is not exactly
`'WIN'` or `'LOSS'`. -/
def invalidForm (f : FormInput) : Prop :=
  f.amount = NumVal.nan ∨ (∃ q, f.amount = NumVal.num q ∧ q ≤ 0) ∨
    (f.result ≠ "WIN" ∧ f.result ≠ "LOSS")

/-- A `sozinho.js` form input that fails its handler's validation: invalid
amount, payout outside `[0, 100]` (or NaN), invalid result, or empty
`operacional`. -/
def invalidSoloForm (f : SoloFormInput) : Prop :=
  f.amount = NumVal.nan ∨ (∃ q, f.amount = NumVal.num q ∧ q ≤ 0) ∨
    f.payoutPercent = NumVal.nan ∨
    (∃ p, f.payoutPercent = NumVal.num p ∧ (p < 0 ∨ p > 100)) ∨
    (f.result ≠ "WIN" ∧ f.result ≠ "LOSS") ∨ f.operacional = ""

/-- C8: on every raw form input failing validation, each submit handler
reports a user-visible message and leaves its state untouched — the main
handler appends no operation and the `sozinho.js` handler leaves the balance
unchanged. -/
theorem c8_invalid_input_rejected (f : FormInput) (g : SoloFormInput)
    (id : String) (now : JSDate) (st : State) (banca : ℚ)
    (hf : invalidForm f) (hg : invalidSoloForm g) :
    (submitOperacao f id now st).1 = st ∧
    (submitOperacao f id now st).2.isSome = true ∧
    (sozinhoSubmit g banca).1 = banca ∧
    (sozinhoSubmit g banca).2.isSome = true := by
  have hmain : (submitOperacao f id now st).1 = st ∧
      (submitOperacao f id now st).2.isSome = true := by
    unfold submitOperacao
    rcases hf with h | ⟨q, hq, hq0⟩ | ⟨hw, hl⟩
    · rw [h]
      exact ⟨rfl, rfl⟩
    · rw [hq]
      simp [hq0]
    · cases ha : f.amount with
      | nan => exact ⟨rfl, rfl⟩
      | num q =>
          by_cases hq0 : q ≤ 0
          · simp [hq0]
          · simp [hq0, hw, hl]
  have hsolo : (sozinhoSubmit g banca).1 = banca ∧
      (sozinhoSubmit g banca).2.isSome = true := by
    unfold sozinhoSubmit
    rcases hg with h | ⟨q, hq, hq0⟩ | h | ⟨p, hp, hpr⟩ | ⟨hw, hl⟩ | hop
    · rw [h]
      exact ⟨rfl, rfl⟩
    · rw [hq]
      simp [hq0]
    · cases ha : g.amount with
      | nan => exact ⟨rfl, rfl⟩
      | num q =>
          by_cases hq0 : q ≤ 0
          · simp [hq0]
          · simp only [if_neg hq0]
            rw [h]
            exact ⟨rfl, rfl⟩
    · cases ha : g.amount with
      | nan => exact ⟨rfl, rfl⟩
      | num q =>
          by_cases hq0 : q ≤ 0
          · simp [hq0]
          · simp only [if_neg hq0]
            rw [hp]
            simp [hpr]
    · cases ha : g.amount with
      | nan => exact ⟨rfl, rfl⟩
      | num q =>
          by_cases hq0 : q ≤ 0
          · simp [hq0]
          · cases hpv : g.payoutPercent with
            | nan => simp [hq0]
            | num p =>
                by_cases hpr : p < 0 ∨ p > 100
                · simp [hq0, hpr]
                · simp [hq0, hpr, hw, hl]
    · cases ha : g.amount with
      | nan => exact ⟨rfl, rfl⟩
      | num q =>
          by_cases hq0 : q ≤ 0
          · simp [hq0]
          · cases hpv : g.payoutPercent with
            | nan => simp [hq0]
            | num p =>
                by_cases hpr : p < 0 ∨ p > 100
                · simp [hq0, hpr]
                · by_cases hres : g.result ≠ "WIN" ∧ g.result ≠ "LOSS"
                  · simp [hq0, hpr, hres]
                  · simp [hq0, hpr, hres, hop]
  exact ⟨hmain.1, hmain.2, hsolo.1, hsolo.2⟩

/-- Witness for C8: a negative amount on the main form and an
out-of-range payout on the `sozinho.js` form are both rejected without
touching the state. -/
theorem c8_invalid_input_rejected_witness :
    (submitOperacao ⟨NumVal.num (-5), "WIN", "", ""⟩ "id1" sampleNow
        initialState).1 = initialState ∧
    (submitOperacao ⟨NumVal.num (-5), "WIN", "", ""⟩ "id1" sampleNow
        initialState).2.isSome = true ∧
    (sozinhoSubmit ⟨NumVal.num 10, NumVal.num 150, "WIN", "M5", ""⟩ 100).1 =
      100 ∧
    (sozinhoSubmit ⟨NumVal.num 10, NumVal.num 150, "WIN", "M5", ""⟩
        100).2.isSome = true :=
  c8_invalid_input_rejected ⟨NumVal.num (-5), "WIN", "", ""⟩
    ⟨NumVal.num 10, NumVal.num 150, "WIN", "M5", ""⟩ "id1" sampleNow
    initialState 100
    (Or.inr (Or.inl ⟨-5, rfl, by norm_num⟩))
    (Or.inr (Or.inr (Or.inr (Or.inl ⟨150, rfl, Or.inr (by norm_num)⟩))))

/-- On a list whose every element is a `'WIN'` or a `'LOSS'`, the WIN count
and the LOSS count add up to the length. -/
lemma wins_add_losses_eq_length :
    ∀ l : List Operation,
      (∀ o ∈ l, o.result = "WIN" ∨ o.result = "LOSS") →
      (l.filter (fun o => o.result = "WIN")).length +
        (l.filter (fun o => o.result = "LOSS")).length = l.length := by
  intro l
  induction l with
  | nil => intro _; rfl
  | cons o rest ih =>
      intro h
      have ho := h o (List.mem_cons_self _ _)
      have hrest : ∀ p ∈ rest, p.result = "WIN" ∨ p.result = "LOSS" :=
        fun p hp => h p (List.mem_cons_of_mem _ hp)
      have := ih hrest
      rcases ho with hw | hl
      · simp only [List.filter_cons, hw, List.length_cons]
        simp
        omega
      · simp only [List.filter_cons, hl, List.length_cons]
        simp
        omega

/-- C9: the result field of every operation entering the state is normalised
to the two-variant enumeration — `carregarLocal` and `adicionarOperacao`
both preserve the invariant that every stored result is exactly `'WIN'` or
`'LOSS'` (any other value becomes `'LOSS'`), and on a state satisfying it
the month WIN and LOSS counts add up to the number of month operations. -/
theorem c9_result_two_variant (st : State) (input : LoadInput)
    (now nowK : JSDate) (id : String) (amount : ℚ)
    (result strategy description : String) (h : ResultOK st) :
    ResultOK (carregarLocal input now st) ∧
    ResultOK (adicionarOperacao id now amount result strategy description st) ∧
    (calcularKPIs st nowK).winsMes + (calcularKPIs st nowK).lossesMes =
      (st.operacoes.filter
        (fun o => (inicioDoMesAtual nowK).le o.createdAt &&
          o.createdAt.le nowK)).length := by
  refine ⟨?_, ?_, ?_⟩
  · cases input with
    | absent => exact h
    | parseError => exact h
    | parsed s =>
        intro o ho
        have : o ∈ (s.operacoes.getD []).map (loadOp now) := ho
        rcases List.mem_map.mp this with ⟨p, _, hpo⟩
        rw [← hpo]
        unfold loadOp
        by_cases hp : p.result = "WIN"
        · left; simp [hp]
        · right; simp [hp]
  · intro o ho
    rcases List.mem_append.mp ho with hold | hnew
    · exact h o hold
    · rcases List.mem_singleton.mp hnew with rfl
      by_cases hr : result = "WIN"
      · left; simp [hr]
      · right; simp [hr]
  · have hmes : ∀ o ∈ st.operacoes.filter
        (fun o => (inicioDoMesAtual nowK).le o.createdAt &&
          o.createdAt.le nowK), o.result = "WIN" ∨ o.result = "LOSS" :=
      fun o ho => h o (List.mem_of_mem_filter ho)
    exact wins_add_losses_eq_length _ hmes

/-- Witness for C9 at the two-LOSS scenario state with a parsed snapshot and
a `'DRAW'` submission. -/
theorem c9_result_two_variant_witness :
    ResultOK (carregarLocal (LoadInput.parsed malformedSnapshot) sampleNow
      c5State) ∧
    ResultOK (adicionarOperacao "id2" sampleNow 10 "DRAW" "" "" c5State) :=
  ⟨(c9_result_two_variant c5State (LoadInput.parsed malformedSnapshot)
      sampleNow sampleNow "id2" 10 "DRAW" "" ""
      (by unfold ResultOK; decide)).1,
    (c9_result_two_variant c5State (LoadInput.parsed malformedSnapshot)
      sampleNow sampleNow "id2" 10 "DRAW" "" ""
      (by unfold ResultOK; decide)).2.1⟩

